import Mathlib

/-!
Shallow embedding of the pgpool-II watchdog coordination subsystem
(src/watchdog/watchdog.c) together with the fragments of pool.h it uses.

C pointers to WatchdogNode values are modelled as stable numeric node ids
(Nat).  Machine ints that can never be negative on the paths modelled here
(counts, sizes) are Nat; values that the code compares against negative
numbers (quorum status, priorities, backend ids, times) are Int.
Pointer-mutating functions become state-passing functions; the actual
sending of a network message is modelled by returning a description of the
message that the code would emit.
-/

namespace PgpoolWd

/-- Watchdog node states, enum WD_STATES (wd state names appear in
wd_state_names[] in watchdog.c). -/
inductive WD_STATES where
  | WD_DEAD
  | WD_LOADING
  | WD_JOINING
  | WD_INITIALIZING
  | WD_COORDINATOR
  | WD_PARTICIPATE_IN_ELECTION
  | WD_STAND_FOR_COORDINATOR
  | WD_STANDBY
  | WD_LOST
  | WD_IN_NW_TROUBLE
  | WD_SHUTDOWN
  | WD_ADD_MESSAGE_SENT
  deriving DecidableEq, Repr

/-- Backend failover request kinds, POOL_REQUEST_KIND in pool.h. -/
inductive POOL_REQUEST_KIND where
  | NODE_UP_REQUEST
  | NODE_DOWN_REQUEST
  | NODE_RECOVERY_REQUEST
  | CLOSE_IDLE_REQUEST
  | PROMOTE_NODE_REQUEST
  | NODE_QUARANTINE_REQUEST
  deriving DecidableEq, Repr

/-- Results of the coordinator consensus computation
(WDFailoverCMDResults; the constructors used by compute_failover_consensus
and its callers). -/
inductive WDFailoverCMDResults where
  | FAILOVER_RES_ERROR
  | FAILOVER_RES_PROCEED
  | FAILOVER_RES_NO_QUORUM
  | FAILOVER_RES_BUILDING_CONSENSUS
  | FAILOVER_RES_CONSENSUS_MAY_FAIL
  | FAILOVER_RES_INVALID_FUNCTION
  | FAILOVER_RES_WILL_BE_DONE
  deriving DecidableEq, Repr

/-- REQ_DETAIL_CONFIRMED flag bit, pool.h line 502. -/
def REQ_DETAIL_CONFIRMED : Nat := 0x00000004

/-- FAILOVER_COMMAND_FINISH_TIMEOUT, watchdog.c line 92. -/
def FAILOVER_COMMAND_FINISH_TIMEOUT : Int := 15

/-- The pool_config fields consulted by the modelled code paths. -/
structure PoolConfig where
  failover_when_quorum_exists : Bool
  failover_require_consensus : Bool
  allow_multiple_failover_requests_from_node : Bool
  enable_consensus_with_half_votes : Bool
  deriving DecidableEq, Repr

/-- get_mimimum_remote_nodes_required_for_quorum, watchdog.c 6367-6382.
Argument is g_cluster.remoteNodeCount. -/
def get_mimimum_remote_nodes_required_for_quorum (remoteNodeCount : Nat) : Nat :=
  if remoteNodeCount % 2 == 0 then
    remoteNodeCount / 2
  else
    (remoteNodeCount - 1) / 2

/-- get_minimum_votes_to_resolve_consensus, watchdog.c 6387-6433. -/
def get_minimum_votes_to_resolve_consensus (cfg : PoolConfig) (remoteNodeCount : Nat) : Nat :=
  let required_node_count := get_mimimum_remote_nodes_required_for_quorum remoteNodeCount + 1
  if remoteNodeCount % 2 != 0 then
    if cfg.enable_consensus_with_half_votes == false then
      required_node_count + 1
    else
      required_node_count
  else
    required_node_count

/-- update_quorum_status, watchdog.c 6332-6362: recomputes
g_cluster.quorum_status from the standby count.  (The state-machine event
fired on a change of the value does not affect the value itself and is not
modelled.) -/
def update_quorum_status (cfg : PoolConfig) (remoteNodeCount standby_nodes_count : Nat) : Int :=
  if standby_nodes_count > get_mimimum_remote_nodes_required_for_quorum remoteNodeCount then
    1
  else if standby_nodes_count == get_mimimum_remote_nodes_required_for_quorum remoteNodeCount then
    if remoteNodeCount % 2 != 0 then
      if cfg.enable_consensus_with_half_votes then 0 else -1
    else 1
  else
    -1

/-- WDFailoverObject, watchdog.c 340-352.  requestingNodes is the list of
requestor node ids (List of WatchdogNode pointers in C). -/
structure WDFailoverObject where
  reqKind : POOL_REQUEST_KIND
  reqFlags : Nat
  nodesCount : Nat
  failoverID : Nat
  nodeList : List Int
  requestingNodes : List Nat
  request_count : Nat
  startTime : Int
  deriving DecidableEq, Repr

/-- does_int_array_contains_value, watchdog.c 2209-2220. -/
def does_int_array_contains_value (intArray : List Int) (value : Int) : Bool :=
  intArray.any (fun x => x == value)

/-- The per-object match test performed by the get_failover_object loop body,
watchdog.c 2230-2246: same kind, same node count, and every entry of the
stored object node list occurs in the queried node list. -/
def failover_object_matches (reqKind : POOL_REQUEST_KIND) (nodesCount : Nat)
    (nodeList : List Int) (failoverObj : WDFailoverObject) : Bool :=
  failoverObj.reqKind == reqKind && failoverObj.nodesCount == nodesCount &&
    failoverObj.nodeList.all (fun v => does_int_array_contains_value nodeList v)

/-- get_failover_object, watchdog.c 2222-2251: first match in
g_cluster.wdCurrentFailovers. -/
def get_failover_object (failovers : List WDFailoverObject) (reqKind : POOL_REQUEST_KIND)
    (nodesCount : Nat) (nodeList : List Int) : Option WDFailoverObject :=
  failovers.find? (failover_object_matches reqKind nodesCount nodeList)

/-- In-place mutation of the object returned by get_failover_object is
modelled by rewriting the first matching list entry. -/
def update_first_failover_object (p : WDFailoverObject → Bool)
    (g : WDFailoverObject → WDFailoverObject) :
    List WDFailoverObject → List WDFailoverObject
  | [] => []
  | f :: fs => if p f then g f :: fs else f :: update_first_failover_object p g fs

/-- remove_failover_object, watchdog.c 2100-2108, applied to the object
found (and possibly updated) at the first matching position. -/
def remove_first_failover_object (p : WDFailoverObject → Bool) :
    List WDFailoverObject → List WDFailoverObject
  | [] => []
  | f :: fs => if p f then fs else f :: remove_first_failover_object p fs

/-- Result of add_failover: the new g_cluster.wdCurrentFailovers list, the
object returned by the function, and the duplicate out-parameter. -/
structure AddFailoverResult where
  failovers : List WDFailoverObject
  obj : WDFailoverObject
  duplicate : Bool
  deriving DecidableEq, Repr

/-- add_failover, watchdog.c 2421-2486.  nextCommandID supplies the value
of get_next_commandID() and now the value of gettimeofday() used for a
newly created object. -/
def add_failover (cfg : PoolConfig) (failovers : List WDFailoverObject)
    (reqKind : POOL_REQUEST_KIND) (node_id_list : List Int) (wdNode : Nat)
    (flags : Nat) (nextCommandID : Nat) (now : Int) : AddFailoverResult :=
  match get_failover_object failovers reqKind node_id_list.length node_id_list with
  | some failoverObj =>
    if failoverObj.requestingNodes.contains wdNode then
      -- duplicate request from the same node, watchdog.c 2439-2458
      if cfg.allow_multiple_failover_requests_from_node then
        let obj := { failoverObj with request_count := failoverObj.request_count + 1 }
        { failovers := update_first_failover_object
            (failover_object_matches reqKind node_id_list.length node_id_list)
            (fun f => { f with request_count := f.request_count + 1 }) failovers
          obj := obj, duplicate := true }
      else
        { failovers := failovers, obj := failoverObj, duplicate := true }
    else
      -- known proposal, first vote from this node: fall through to the
      -- common increment-and-append tail, watchdog.c 2481-2484
      let obj := { failoverObj with
                    request_count := failoverObj.request_count + 1,
                    requestingNodes := failoverObj.requestingNodes ++ [wdNode] }
      { failovers := update_first_failover_object
          (failover_object_matches reqKind node_id_list.length node_id_list)
          (fun f => { f with request_count := f.request_count + 1,
                             requestingNodes := f.requestingNodes ++ [wdNode] }) failovers
        obj := obj, duplicate := false }
  | none =>
    -- new proposal, watchdog.c 2461-2479, then the common tail
    let obj : WDFailoverObject :=
      { reqKind := reqKind, reqFlags := flags, nodesCount := node_id_list.length,
        failoverID := nextCommandID, nodeList := node_id_list,
        requestingNodes := [wdNode], request_count := 1, startTime := now }
    { failovers := failovers ++ [obj], obj := obj, duplicate := false }

/-- The pieces of g_cluster consulted by compute_failover_consensus. -/
structure ConsensusState where
  remoteNodeCount : Nat
  standby_nodes_count : Nat
  quorum_status : Int
  wdCurrentFailovers : List WDFailoverObject
  nextCommandID : Nat
  deriving DecidableEq, Repr

/-- compute_failover_consensus, watchdog.c 2334-2419.  Returns the result
code, the updated cluster state, and the final value of the in/out flags
argument.  The three ifndef NODE_x_REQUIRE_CONSENSUS early exits are
compiled out because all three macros are defined at watchdog.c 65-67. -/
def compute_failover_consensus (cfg : PoolConfig) (st : ConsensusState)
    (reqKind : POOL_REQUEST_KIND) (node_id_list : List Int) (flags : Nat)
    (wdNode : Nat) (now : Int) : WDFailoverCMDResults × ConsensusState × Nat :=
  if cfg.failover_when_quorum_exists == false then
    (WDFailoverCMDResults.FAILOVER_RES_PROCEED, st, flags)
  else if Nat.land flags REQ_DETAIL_CONFIRMED != 0 then
    (WDFailoverCMDResults.FAILOVER_RES_PROCEED, st, flags)
  else
    let st := { st with quorum_status :=
                  update_quorum_status cfg st.remoteNodeCount st.standby_nodes_count }
    if st.quorum_status < 0 then
      (WDFailoverCMDResults.FAILOVER_RES_NO_QUORUM, st, flags)
    else if cfg.failover_require_consensus == true then
      let r := add_failover cfg st.wdCurrentFailovers reqKind node_id_list wdNode flags
                 st.nextCommandID now
      if r.obj.request_count < get_minimum_votes_to_resolve_consensus cfg st.remoteNodeCount then
        if r.duplicate && !cfg.allow_multiple_failover_requests_from_node then
          (WDFailoverCMDResults.FAILOVER_RES_CONSENSUS_MAY_FAIL,
            { st with wdCurrentFailovers := r.failovers }, flags)
        else
          (WDFailoverCMDResults.FAILOVER_RES_BUILDING_CONSENSUS,
            { st with wdCurrentFailovers := r.failovers }, flags)
      else
        -- enough votes: restore the first-vote flags and drop the object
        let remaining := remove_first_failover_object
          (failover_object_matches reqKind node_id_list.length node_id_list) r.failovers
        (WDFailoverCMDResults.FAILOVER_RES_PROCEED,
          { st with wdCurrentFailovers := remaining }, r.obj.reqFlags)
    else
      (WDFailoverCMDResults.FAILOVER_RES_PROCEED, st, flags)

/-! ### Message byte codes (watchdog.c 97-130) -/

/-- WD_NO_MESSAGE, watchdog.c 97. -/
def WD_NO_MESSAGE : Char := Char.ofNat 0

/-- WD_ERROR_MESSAGE, watchdog.c 102. -/
def WD_ERROR_MESSAGE : Char := 'E'

/-- WD_ACCEPT_MESSAGE, watchdog.c 103. -/
def WD_ACCEPT_MESSAGE : Char := 'G'

/-- WD_INFO_MESSAGE, watchdog.c 104. -/
def WD_INFO_MESSAGE : Char := 'I'

/-- WD_REJECT_MESSAGE, watchdog.c 109. -/
def WD_REJECT_MESSAGE : Char := 'R'

/-- Cluster service sub-code CLUSTER_NEEDS_ELECTION, watchdog.c 126. -/
def CLUSTER_NEEDS_ELECTION : Char := 'E'

/-- Cluster service sub-code CLUSTER_IAM_TRUE_MASTER, watchdog.c 127. -/
def CLUSTER_IAM_TRUE_MASTER : Char := 'M'

/-- Cluster service sub-code CLUSTER_IAM_NOT_TRUE_MASTER, watchdog.c 128. -/
def CLUSTER_IAM_NOT_TRUE_MASTER : Char := 'X'

/-- Cluster service sub-code CLUSTER_IAM_RESIGNING_FROM_MASTER, watchdog.c 129. -/
def CLUSTER_IAM_RESIGNING_FROM_MASTER : Char := 'R'

/-! ### Split-brain resolution (watchdog.c 5871-6009) -/

/-- The node fields consulted by the split-brain tiebreaker.  For the local
node, quorum_status comes from g_cluster.quorum_status,
standby_nodes_count from g_cluster.clusterMasterInfo and the rest from
g_cluster.localNode; for the remote node all fields come from its beacon
snapshot in the peer table. -/
structure MasterView where
  state : WD_STATES
  escalated : Bool
  quorum_status : Int
  standby_nodes_count : Int
  current_state_time_sec : Int
  deriving DecidableEq, Repr

/-- I_am_master_and_cluser_in_split_brain, watchdog.c 5871-5968.
Returns -1 when the remote node should remain master, 1 when the local
node should, 0 when no decision is possible. -/
def I_am_master_and_cluser_in_split_brain (localNode otherMasterNode : MasterView) : Int :=
  if localNode.state != WD_STATES.WD_COORDINATOR then 0
  else if otherMasterNode.state != WD_STATES.WD_COORDINATOR then 0
  else if otherMasterNode.current_state_time_sec == 0 then 0
  else if otherMasterNode.escalated != localNode.escalated then
    if otherMasterNode.escalated == true && localNode.escalated == false then -1 else 1
  else if otherMasterNode.quorum_status != localNode.quorum_status then
    if otherMasterNode.quorum_status > localNode.quorum_status then -1 else 1
  else if otherMasterNode.standby_nodes_count != localNode.standby_nodes_count then
    if otherMasterNode.standby_nodes_count > localNode.standby_nodes_count then -1 else 1
  else
    if otherMasterNode.current_state_time_sec < localNode.current_state_time_sec then -1 else 1

/-- Destination of a cluster-service message: NULL first argument to
send_cluster_service_message means broadcast to every node. -/
inductive MsgDest where
  | broadcast
  | toNode
  deriving DecidableEq, Repr

/-- What handle_split_brain does: which cluster-service sub-code is sent
where, and the state passed to set_state (the local state is unchanged
when set_state is not called). -/
structure SplitBrainOutcome where
  message : Char
  dest : MsgDest
  newLocalState : WD_STATES
  deriving DecidableEq, Repr

/-- handle_split_brain, watchdog.c 5970-6009. -/
def handle_split_brain (localNode otherMasterNode : MasterView) : SplitBrainOutcome :=
  let decide_master := I_am_master_and_cluser_in_split_brain localNode otherMasterNode
  if decide_master == 0 then
    { message := CLUSTER_NEEDS_ELECTION, dest := MsgDest.toNode,
      newLocalState := WD_STATES.WD_JOINING }
  else if decide_master == -1 then
    { message := CLUSTER_IAM_NOT_TRUE_MASTER, dest := MsgDest.broadcast,
      newLocalState := WD_STATES.WD_JOINING }
  else
    { message := CLUSTER_IAM_TRUE_MASTER, dest := MsgDest.toNode,
      newLocalState := localNode.state }

/-- Modelled from the spec (claim C3 wording, spec section 4.4): the remote
coordinator is worthier exactly when the four-step tiebreaker -- escalated
beats not-escalated, else greater quorum_status, else greater
standby_count, else older current_state_since -- decides for it.  Used
only to compare the source tiebreaker against the spec order. -/
def spec_remote_master_worthier (localNode otherMasterNode : MasterView) : Bool :=
  if otherMasterNode.escalated != localNode.escalated then
    otherMasterNode.escalated
  else if otherMasterNode.quorum_status != localNode.quorum_status then
    otherMasterNode.quorum_status > localNode.quorum_status
  else if otherMasterNode.standby_nodes_count != localNode.standby_nodes_count then
    otherMasterNode.standby_nodes_count > localNode.standby_nodes_count
  else
    otherMasterNode.current_state_time_sec < localNode.current_state_time_sec

/-! ### Election: receiving StandForCoordinator while standing
(watchdog.c 5378-5406) -/

/-- The WD_STAND_FOR_COORDINATOR_MESSAGE branch of the WD_EVENT_PACKET_RCV
case of watchdog_state_machine_standForCord, watchdog.c 5382-5406: the
reply sent to the peer and the local state afterwards (the local node is
in WD_STAND_FOR_COORDINATOR and only moves when set_state is called). -/
def standForCord_on_stand_for_coordinator_msg
    (local_wd_priority other_wd_priority : Int)
    (local_startup_time_sec other_startup_time_sec : Int) : Char × WD_STATES :=
  if local_wd_priority > other_wd_priority then
    (WD_REJECT_MESSAGE, WD_STATES.WD_STAND_FOR_COORDINATOR)
  else if local_wd_priority == other_wd_priority then
    if local_startup_time_sec <= other_startup_time_sec then
      -- I am older
      (WD_REJECT_MESSAGE, WD_STATES.WD_STAND_FOR_COORDINATOR)
    else
      (WD_ACCEPT_MESSAGE, WD_STATES.WD_PARTICIPATE_IN_ELECTION)
  else
    (WD_ACCEPT_MESSAGE, WD_STATES.WD_PARTICIPATE_IN_ELECTION)

/-! ### Failover proposal expiry (watchdog.c 2131-2207) -/

/-- Backend server roles (SERVER_ROLE in pool_config.h; only ROLE_PRIMARY
is consulted by the modelled code). -/
inductive SERVER_ROLE where
  | ROLE_MASTER
  | ROLE_SLAVE
  | ROLE_PRIMARY
  | ROLE_STANDBY
  deriving DecidableEq, Repr

/-- The BACKEND_INFO fields consulted by service_expired_failovers. -/
structure BackendInfo where
  quarantine : Bool
  role : SERVER_ROLE
  deriving DecidableEq, Repr

/-- The state touched by service_expired_failovers: the local node state
and priority, the proposal list, and Req_info primary_node_id from the
middleware shared memory. -/
structure ExpiryState where
  localState : WD_STATES
  local_wd_priority : Int
  localNodeId : Nat
  wdCurrentFailovers : List WDFailoverObject
  primary_node_id : Int
  deriving DecidableEq, Repr

/-- The resignation test applied to one expired proposal,
watchdog.c 2156-2187: a NODE_DOWN proposal the local node itself voted
for, naming a backend that the local middleware has quarantined as
primary while no primary is known. -/
def expired_failover_needs_resign (st : ExpiryState) (backend_info : Int → BackendInfo)
    (failoverObj : WDFailoverObject) : Bool :=
  failoverObj.reqKind == POOL_REQUEST_KIND.NODE_DOWN_REQUEST &&
  failoverObj.requestingNodes.contains st.localNodeId &&
  failoverObj.nodeList.any (fun node_id =>
    node_id != -1 &&
    st.primary_node_id == -1 &&
    (backend_info node_id).quarantine == true &&
    (backend_info node_id).role == SERVER_ROLE.ROLE_PRIMARY)

/-- service_expired_failovers, watchdog.c 2131-2207.  The C loop carries a
need_to_resign flag whose short-circuit only avoids re-testing once set;
the final value equals this existential over the expired proposals.
Returns the new state and whether CLUSTER_IAM_RESIGNING_FROM_MASTER was
broadcast.  When it resigns, set_state(WD_JOINING) runs from
WD_COORDINATOR and therefore also clears the whole proposal list
(set_state, watchdog.c 6453-6458, calling clear_all_failovers). -/
def service_expired_failovers (st : ExpiryState) (backend_info : Int → BackendInfo)
    (currTime : Int) : ExpiryState × Bool :=
  if st.localState != WD_STATES.WD_COORDINATOR then
    (st, false)
  else
    let expired := fun (f : WDFailoverObject) =>
      decide (currTime - f.startTime >= FAILOVER_COMMAND_FINISH_TIMEOUT)
    let need_to_resign := st.wdCurrentFailovers.any (fun f =>
      expired f && expired_failover_needs_resign st backend_info f)
    let remaining := st.wdCurrentFailovers.filter (fun f => !expired f)
    if need_to_resign then
      ({ st with local_wd_priority := -1,
                 localState := WD_STATES.WD_JOINING,
                 wdCurrentFailovers := [] }, true)
    else
      ({ st with wdCurrentFailovers := remaining }, false)

/-! ### Escalation / de-escalation entry points (watchdog.c 6011-6081) -/

/-- The g_cluster fields read or written by start_escalated_node and
resign_from_escalated_node.  delegate_ip_len is strlen of the local node
delegate_ip. -/
structure EscalationState where
  escalated : Bool
  holding_vip : Bool
  escalation_pid : Int
  de_escalation_pid : Int
  delegate_ip_len : Nat
  deriving DecidableEq, Repr

/-- start_escalated_node, watchdog.c 6011-6051.  fork_result stands for
the pid returned by fork_escalation_process().  The second component
counts how many escalation helper processes the call forked.  The wait
loop for a still-running de-escalation helper only sleeps and reaps
children; it does not change any modelled field. -/
def start_escalated_node (fork_result : Int) (s : EscalationState) : EscalationState × Nat :=
  if s.escalated == true then
    (s, 0)  -- already escalated
  else
    let s := { s with escalation_pid := fork_result }
    if s.escalation_pid > 0 then
      let s := { s with escalated := true }
      let s := if s.delegate_ip_len > 0 then { s with holding_vip := true } else s
      (s, 1)
    else
      (s, 1)

/-- resign_from_escalated_node, watchdog.c 6053-6081.  fork_result stands
for the pid returned by fork_plunging_process(); the second component
counts forked de-escalation helpers. -/
def resign_from_escalated_node (fork_result : Int) (s : EscalationState) : EscalationState × Nat :=
  if s.escalated == false then
    (s, 0)
  else
    ({ s with de_escalation_pid := fork_result,
              holding_vip := false,
              escalated := false }, 1)

/-- n successive calls of start_escalated_node, adding up the number of
escalation helpers forked. -/
def start_escalated_node_iter (fork_result : Int) :
    Nat → EscalationState → EscalationState × Nat
  | 0, s => (s, 0)
  | n + 1, s =>
    let (s1, k1) := start_escalated_node fork_result s
    let (s2, k2) := start_escalated_node_iter fork_result n s1
    (s2, k1 + k2)

/-! ### Command tracker: processing replies to multi-peer commands
(watchdog.c 757-764, 3526-3529, 4341-4414) -/

/-- WDNodeCommandState, watchdog.c 227-234 (the INIT typo is the
source's). -/
inductive WDNodeCommandState where
  | COMMAMD_STATE_INIT
  | COMMAND_STATE_SENT
  | COMMAND_STATE_REPLIED
  | COMMAND_STATE_SEND_ERROR
  | COMMAND_STATE_DO_NOT_SEND
  deriving DecidableEq, Repr

/-- WDCommandStatus, watchdog.c 270-278. -/
inductive WDCommandStatus where
  | COMMAND_EMPTY
  | COMMAND_IN_PROGRESS
  | COMMAND_FINISHED_TIMEOUT
  | COMMAND_FINISHED_ALL_REPLIED
  | COMMAND_FINISHED_NODE_REJECTED
  | COMMAND_FINISHED_SEND_FAILED
  deriving DecidableEq, Repr

/-- WDCommandNodeResult, watchdog.c 236-243 (result_data not modelled). -/
structure WDCommandNodeResult where
  wdNode : Nat
  cmdState : WDNodeCommandState
  result_type : Char
  deriving DecidableEq, Repr

/-- clear_command_node_result, watchdog.c 757-764. -/
def clear_command_node_result (nodeResult : WDCommandNodeResult) : WDCommandNodeResult :=
  { nodeResult with result_type := WD_NO_MESSAGE,
                    cmdState := WDNodeCommandState.COMMAMD_STATE_INIT }

/-- The WDCommandData fields used by the internal-command reply path. -/
structure WDCommandData where
  command_id : Nat
  commandStatus : WDCommandStatus
  nodeResults : List WDCommandNodeResult
  commandSendToCount : Nat
  commandReplyFromCount : Nat
  deriving DecidableEq, Repr

/-- get_wd_command_from_reply / get_wd_cluster_command_from_reply,
watchdog.c 3526-3556: first command in g_cluster.clusterCommands whose
commandPacket command_id equals the reply command_id. -/
def get_wd_cluster_command_from_reply (clusterCommands : List WDCommandData)
    (pkt_command_id : Nat) : Option WDCommandData :=
  clusterCommands.find? (fun c => c.command_id == pkt_command_id)

/-- Generic first-match list update (in-place mutation of a list member). -/
def list_update_first {α : Type} (p : α → Bool) (g : α → α) : List α → List α
  | [] => []
  | x :: xs => if p x then g x :: xs else x :: list_update_first p g xs

/-- Generic first-match removal (list_delete_ptr on the found member). -/
def list_remove_first {α : Type} (p : α → Bool) : List α → List α
  | [] => []
  | x :: xs => if p x then xs else x :: list_remove_first p xs

/-- The node-result scan of watchdog_internal_command_packet_processor,
watchdog.c 4360-4382: every slot visited is first wiped by
clear_command_node_result; the loop breaks at the slot whose wdNode is
the sender, which then records the reply (result_type and
COMMAND_STATE_REPLIED).  Returns the rewritten slot list and whether the
sender's slot was found. -/
def mark_node_reply (wdNode : Nat) (pkt_type : Char) :
    List WDCommandNodeResult → List WDCommandNodeResult × Bool
  | [] => ([], false)
  | r :: rs =>
    let r0 := clear_command_node_result r
    if r0.wdNode == wdNode then
      ({ r0 with result_type := pkt_type,
                 cmdState := WDNodeCommandState.COMMAND_STATE_REPLIED } :: rs, true)
    else
      let rest := mark_node_reply wdNode pkt_type rs
      (r0 :: rest.1, rest.2)

/-- Observable outcome of watchdog_internal_command_packet_processor: the
new g_cluster.clusterCommands list (a finished command is deleted from
it), the C return value, the updated command record (before its memory
context is deleted) and the status it finished with, if it finished. -/
structure PacketProcessorResult where
  clusterCommands : List WDCommandData
  handled : Bool
  command : Option WDCommandData
  finishedStatus : Option WDCommandStatus
  deriving DecidableEq, Repr

/-- watchdog_internal_command_packet_processor, watchdog.c 4341-4414.
The WD_INFO_MESSAGE side call into standard_packet_processor only updates
the peer-table snapshot, which is not part of this state. -/
def watchdog_internal_command_packet_processor (clusterCommands : List WDCommandData)
    (wdNode : Nat) (pkt_type : Char) (pkt_command_id : Nat) : PacketProcessorResult :=
  match get_wd_cluster_command_from_reply clusterCommands pkt_command_id with
  | none =>
    { clusterCommands := clusterCommands, handled := false,
      command := none, finishedStatus := none }
  | some clusterCommand =>
    if clusterCommand.commandStatus != WDCommandStatus.COMMAND_IN_PROGRESS then
      { clusterCommands := clusterCommands, handled := false,
        command := none, finishedStatus := none }
    else if pkt_type != WD_ERROR_MESSAGE && pkt_type != WD_ACCEPT_MESSAGE &&
            pkt_type != WD_REJECT_MESSAGE && pkt_type != WD_INFO_MESSAGE then
      { clusterCommands := clusterCommands, handled := false,
        command := none, finishedStatus := none }
    else
      let scanned := mark_node_reply wdNode pkt_type clusterCommand.nodeResults
      if scanned.2 == false then
        -- "unable to find node result": the slots visited stay cleared
        let cmd := { clusterCommand with nodeResults := scanned.1 }
        { clusterCommands := list_update_first (fun c => c.command_id == pkt_command_id)
            (fun _ => cmd) clusterCommands,
          handled := true, command := some cmd, finishedStatus := none }
      else
        let cmd := { clusterCommand with
                      nodeResults := scanned.1,
                      commandReplyFromCount := clusterCommand.commandReplyFromCount + 1 }
        if cmd.commandReplyFromCount >= cmd.commandSendToCount then
          let status := if pkt_type == WD_REJECT_MESSAGE || pkt_type == WD_ERROR_MESSAGE then
              WDCommandStatus.COMMAND_FINISHED_NODE_REJECTED
            else
              WDCommandStatus.COMMAND_FINISHED_ALL_REPLIED
          let cmd := { cmd with commandStatus := status }
          { clusterCommands := list_remove_first (fun c => c.command_id == pkt_command_id)
              clusterCommands,
            handled := true, command := some cmd, finishedStatus := some status }
        else if pkt_type == WD_REJECT_MESSAGE || pkt_type == WD_ERROR_MESSAGE then
          let cmd := { cmd with
                        commandStatus := WDCommandStatus.COMMAND_FINISHED_NODE_REJECTED }
          { clusterCommands := list_remove_first (fun c => c.command_id == pkt_command_id)
              clusterCommands,
            handled := true, command := some cmd,
            finishedStatus := some WDCommandStatus.COMMAND_FINISHED_NODE_REJECTED }
        else
          { clusterCommands := list_update_first (fun c => c.command_id == pkt_command_id)
              (fun _ => cmd) clusterCommands,
            handled := true, command := some cmd, finishedStatus := none }

/-! ### IPC authentication (watchdog.c 1795-1904, 6885-7036) -/

/-- IPC_CMD_PREOCESS_RES, watchdog.c 69-76 (typo is the source's). -/
inductive IPC_CMD_PREOCESS_RES where
  | IPC_CMD_COMPLETE
  | IPC_CMD_PROCESSING
  | IPC_CMD_ERROR
  | IPC_CMD_OK
  | IPC_CMD_TRY_AGAIN
  deriving DecidableEq, Repr

/-- IPC result frame types (wd_ipc_defines.h; the byte values are opaque
to the modelled logic). -/
inductive IPCResultType where
  | WD_IPC_CMD_CLUSTER_IN_TRAN
  | WD_IPC_CMD_RESULT_BAD
  | WD_IPC_CMD_RESULT_OK
  | WD_IPC_CMD_TIMEOUT
  deriving DecidableEq, Repr

/-- IPC command types dispatched by check_and_report_IPC_authentication
and process_IPC_command (wd_ipc_defines.h; byte values opaque). -/
inductive IPCCommandType where
  | WD_NODE_STATUS_CHANGE_COMMAND
  | WD_REGISTER_FOR_NOTIFICATION
  | WD_GET_NODES_LIST_COMMAND
  | WD_GET_RUNTIME_VARIABLE_VALUE
  | WD_IPC_FAILOVER_COMMAND
  | WD_IPC_ONLINE_RECOVERY_COMMAND
  | WD_GET_MASTER_DATA_REQUEST
  | WD_FAILOVER_INDICATION
  deriving DecidableEq, Repr

/-- The authentication-relevant content of an IPC packet's JSON payload:
the optional IPCSharedKey and IPCAuthKey members. -/
structure IPCAuthPayload where
  sharedKey : Option Int
  authKey : Option String
  deriving DecidableEq, Repr

/-- An IPC packet's data as seen by the authentication path: absent
(len <= 0 or NULL), present but not parseable as a JSON object, or a
parsed JSON object. -/
inductive IPCPacketData where
  | noData
  | notObject
  | obj (payload : IPCAuthPayload)
  deriving DecidableEq, Repr

/-- check_IPC_client_authentication, watchdog.c 6885-6952.
shared_key_mem is what get_ipc_shared_key() returns (none when the shared
memory segment is not initialized); wd_authkey the configured key and
ipc_auth_needed the g_cluster flag (strlen(wd_authkey) > 0).  In the
external-command branch the C code dereferences shared_key without a NULL
check when the packet carries IPCSharedKey; a missing segment is modelled
as a mismatch. -/
def check_IPC_client_authentication (shared_key_mem : Option Int)
    (ipc_auth_needed : Bool) (wd_authkey : String)
    (payload : IPCAuthPayload) (internal_client_only : Bool) : Bool :=
  let has_shared_key := payload.sharedKey.isSome
  if internal_client_only then
    match shared_key_mem with
    | none => false  -- shared key not initialized
    | some shared_key =>
      match payload.sharedKey with
      | none => false  -- authentication shared key not found in json data
      | some packet_key => shared_key == packet_key
  else if ipc_auth_needed == false then
    true
  else if has_shared_key == true &&
          payload.sharedKey == shared_key_mem && shared_key_mem.isSome then
    true
  else
    match payload.authKey with
    | none => false  -- authentication key not found in json data
    | some packet_auth_key => wd_authkey == packet_auth_key

/-- The command classification switch of
check_and_report_IPC_authentication, watchdog.c 6970-6990: none means the
default case (unknown commands pass, and so does WD_FAILOVER_INDICATION,
which the switch does not list). -/
def ipc_command_internal_client_only (t : IPCCommandType) : Option Bool :=
  match t with
  | IPCCommandType.WD_NODE_STATUS_CHANGE_COMMAND => some false
  | IPCCommandType.WD_REGISTER_FOR_NOTIFICATION => some false
  | IPCCommandType.WD_GET_NODES_LIST_COMMAND => some false
  | IPCCommandType.WD_GET_RUNTIME_VARIABLE_VALUE => some false
  | IPCCommandType.WD_IPC_FAILOVER_COMMAND => some true
  | IPCCommandType.WD_IPC_ONLINE_RECOVERY_COMMAND => some true
  | IPCCommandType.WD_GET_MASTER_DATA_REQUEST => some true
  | IPCCommandType.WD_FAILOVER_INDICATION => none

/-- check_and_report_IPC_authentication, watchdog.c 6959-7036: whether
the command passes authentication, together with the error message stored
on the command for the reply on failure. -/
def check_and_report_IPC_authentication (packet_type : IPCCommandType)
    (packet_data : IPCPacketData) (shared_key_mem : Option Int)
    (ipc_auth_needed : Bool) (wd_authkey : String) : Bool × Option String :=
  match ipc_command_internal_client_only packet_type with
  | none => (true, none)  -- unknown command, ignore it
  | some internal_client_only =>
    if internal_client_only == false && ipc_auth_needed == false then
      (true, none)
    else
      match packet_data with
      | IPCPacketData.noData => (false, some "authentication failed: invalid data")
      | IPCPacketData.notObject => (false, some "authentication failed: invalid data")
      | IPCPacketData.obj payload =>
        if check_IPC_client_authentication shared_key_mem ipc_auth_needed
             wd_authkey payload internal_client_only then
          (true, none)
        else
          (false, some "authentication failed: invalid KEY")

/-- process_IPC_command, watchdog.c 1857-1904, with the per-command
dispatch abstracted: the dispatch receives the watchdog state and returns
the processing result with a possibly changed state.  On authentication
failure the dispatch is never invoked. -/
def process_IPC_command {St : Type} (st : St)
    (packet_type : IPCCommandType) (packet_data : IPCPacketData)
    (shared_key_mem : Option Int) (ipc_auth_needed : Bool) (wd_authkey : String)
    (dispatch : St → IPC_CMD_PREOCESS_RES × St) :
    IPC_CMD_PREOCESS_RES × St × Option String :=
  let auth := check_and_report_IPC_authentication packet_type packet_data
    shared_key_mem ipc_auth_needed wd_authkey
  if auth.1 == false then
    (IPC_CMD_PREOCESS_RES.IPC_CMD_ERROR, st, auth.2)
  else
    let r := dispatch st
    (r.1, r.2, none)

/-- The reply-frame type chosen by read_ipc_socket_and_process for a
result other than IPC_CMD_COMPLETE and IPC_CMD_PROCESSING,
watchdog.c 1809-1833. -/
def ipc_reply_type_for_result (res : IPC_CMD_PREOCESS_RES) : IPCResultType :=
  match res with
  | IPC_CMD_PREOCESS_RES.IPC_CMD_TRY_AGAIN => IPCResultType.WD_IPC_CMD_CLUSTER_IN_TRAN
  | IPC_CMD_PREOCESS_RES.IPC_CMD_ERROR => IPCResultType.WD_IPC_CMD_RESULT_BAD
  | IPC_CMD_PREOCESS_RES.IPC_CMD_OK => IPCResultType.WD_IPC_CMD_RESULT_OK
  | _ => IPCResultType.WD_IPC_CMD_RESULT_BAD

/-- Voting bookkeeping a proposal is expected to keep: request_count
counts the recorded requestors and no requestor is recorded twice. -/
def failover_vote_invariant (f : WDFailoverObject) : Prop :=
  f.request_count = f.requestingNodes.length ∧ f.requestingNodes.Nodup

/-! ## Theorems -/

/-- Helper: the reply of a standing-for-coordinator node to a peer's
StandForCoordinator message, as a single case split (Reject and stand
firm exactly when the local pair (priority, startup age) wins). -/
theorem standForCord_reply_cases (a b c d : Int) :
    standForCord_on_stand_for_coordinator_msg a b c d
      = if b < a ∨ (b = a ∧ c <= d)
        then (WD_REJECT_MESSAGE, WD_STATES.WD_STAND_FOR_COORDINATOR)
        else (WD_ACCEPT_MESSAGE, WD_STATES.WD_PARTICIPATE_IN_ELECTION) := by
  unfold standForCord_on_stand_for_coordinator_msg
  by_cases h1 : a > b
  · rw [if_pos h1, if_pos (Or.inl h1)]
  · rw [if_neg h1]
    by_cases h2 : a = b
    · subst h2
      simp only [beq_self_eq_true, if_true]
      by_cases h3 : c <= d
      · rw [if_pos h3, if_pos (Or.inr ⟨by trivial, h3⟩)]
      · rw [if_neg h3, if_neg (by intro hx; rcases hx with hx | ⟨_, hx⟩ <;> omega)]
    · have hbeq : (a == b) = false := by simp [h2]
      rw [hbeq]
      simp only [Bool.false_eq_true, if_false]
      rw [if_neg (by intro hx; rcases hx with hx | ⟨hx, _⟩ <;> omega)]

/-- Helper: rewriting the first match of a list, when the first match is
known through find?, preserves a per-element property as long as the
rewritten element keeps it. -/
theorem update_first_of_find {P : WDFailoverObject → Prop}
    (p : WDFailoverObject → Bool) (g : WDFailoverObject → WDFailoverObject)
    (obj : WDFailoverObject) (hobj : P (g obj)) :
    ∀ l : List WDFailoverObject, l.find? p = some obj → (∀ f ∈ l, P f) →
      ∀ f ∈ update_first_failover_object p g l, P f := by
  intro l
  induction l with
  | nil => intro hfind; simp at hfind
  | cons x xs ih =>
    intro hfind hinv f hf
    by_cases hx : p x
    · rw [List.find?_cons_of_pos _ hx] at hfind
      injection hfind with hfind
      subst hfind
      unfold update_first_failover_object at hf
      rw [if_pos hx] at hf
      rcases List.mem_cons.mp hf with rfl | hf
      · exact hobj
      · exact hinv f (List.mem_cons_of_mem _ hf)
    · rw [List.find?_cons_of_neg _ hx] at hfind
      unfold update_first_failover_object at hf
      rw [if_neg hx] at hf
      rcases List.mem_cons.mp hf with rfl | hf
      · exact hinv _ (List.mem_cons_self _ _)
      · exact ih hfind (fun f hf => hinv f (List.mem_cons_of_mem _ hf)) f hf

/-- Helper: the node-result scan finds a slot exactly when the replying
node owns one of the command's result slots. -/
theorem mark_node_reply_found_iff (wdNode : Nat) (t : Char) :
    ∀ rs : List WDCommandNodeResult,
      (mark_node_reply wdNode t rs).2 = true ↔ ∃ r ∈ rs, r.wdNode = wdNode := by
  intro rs
  induction rs with
  | nil => simp [mark_node_reply]
  | cons r rs ih =>
    unfold mark_node_reply
    by_cases hr : r.wdNode = wdNode
    · simp [clear_command_node_result, hr]
    · simp only [clear_command_node_result]
      rw [if_neg (by simp [hr])]
      simp only [List.mem_cons]
      constructor
      · intro h
        rcases ih.mp h with ⟨x, hx, hw⟩
        exact ⟨x, Or.inr hx, hw⟩
      · intro ⟨x, hx, hw⟩
        rcases hx with rfl | hx
        · exact absurd hw hr
        · exact ih.mpr ⟨x, hx, hw⟩

/-- C1 (counterexample): with failover_when_quorum_exists = false but
failover_require_consensus = true, a NODE_DOWN request without the
Confirmed flag proceeds although no proposal exists at all, let alone one
with min_votes = 3 requestors; so the claim's two exceptions are not the
only ways to proceed below min_votes. -/
theorem C1_consensus_safety_counterexample :
    (compute_failover_consensus
      { failover_when_quorum_exists := false, failover_require_consensus := true,
        allow_multiple_failover_requests_from_node := false,
        enable_consensus_with_half_votes := false }
      { remoteNodeCount := 3, standby_nodes_count := 0, quorum_status := -1,
        wdCurrentFailovers := [], nextCommandID := 1 }
      POOL_REQUEST_KIND.NODE_DOWN_REQUEST [0] 0 5 100).1
      = WDFailoverCMDResults.FAILOVER_RES_PROCEED
    ∧ Nat.land 0 REQ_DETAIL_CONFIRMED = 0
    ∧ (compute_failover_consensus
        { failover_when_quorum_exists := false, failover_require_consensus := true,
          allow_multiple_failover_requests_from_node := false,
          enable_consensus_with_half_votes := false }
        { remoteNodeCount := 3, standby_nodes_count := 0, quorum_status := -1,
          wdCurrentFailovers := [], nextCommandID := 1 }
        POOL_REQUEST_KIND.NODE_DOWN_REQUEST [0] 0 5 100).2.1.wdCurrentFailovers = []
    ∧ get_minimum_votes_to_resolve_consensus
        { failover_when_quorum_exists := false, failover_require_consensus := true,
          allow_multiple_failover_requests_from_node := false,
          enable_consensus_with_half_votes := false } 3 = 3 := by
  decide

/-- C1 (amended): when failover_when_quorum_exists is also true, a request
without the Confirmed flag under failover_require_consensus = true only
returns Proceed once its proposal has accumulated at least
min_votes requestors. -/
theorem C1_consensus_safety_amended (cfg : PoolConfig) (st : ConsensusState)
    (reqKind : POOL_REQUEST_KIND) (nl : List Int) (flags : Nat) (wdNode : Nat) (now : Int)
    (hq : cfg.failover_when_quorum_exists = true)
    (hflags : Nat.land flags REQ_DETAIL_CONFIRMED = 0)
    (hrc : cfg.failover_require_consensus = true)
    (hproceed : (compute_failover_consensus cfg st reqKind nl flags wdNode now).1
      = WDFailoverCMDResults.FAILOVER_RES_PROCEED) :
    get_minimum_votes_to_resolve_consensus cfg st.remoteNodeCount
      <= (add_failover cfg st.wdCurrentFailovers reqKind nl wdNode flags
            st.nextCommandID now).obj.request_count := by
  by_cases hquorum : update_quorum_status cfg st.remoteNodeCount st.standby_nodes_count < 0
  · simp [compute_failover_consensus, hq, hflags, hrc, hquorum] at hproceed
  · by_cases hcount : (add_failover cfg st.wdCurrentFailovers reqKind nl wdNode flags
        st.nextCommandID now).obj.request_count
      < get_minimum_votes_to_resolve_consensus cfg st.remoteNodeCount
    · by_cases hdup : (add_failover cfg st.wdCurrentFailovers reqKind nl wdNode flags
          st.nextCommandID now).duplicate = true
      · by_cases hallow : cfg.allow_multiple_failover_requests_from_node = true
        · simp [compute_failover_consensus, hq, hflags, hrc, hquorum, hcount,
            hdup, hallow] at hproceed
        · simp [compute_failover_consensus, hq, hflags, hrc, hquorum, hcount,
            hdup, Bool.not_eq_true _ ▸ hallow] at hproceed
      · simp [compute_failover_consensus, hq, hflags, hrc, hquorum, hcount,
          hdup] at hproceed
    · omega

/-- Witness for C1 amended: a single-node cluster (remote count 0)
reaching min_votes = 1 with the first vote. -/
theorem C1_consensus_safety_amended_witness :
    get_minimum_votes_to_resolve_consensus
      { failover_when_quorum_exists := true, failover_require_consensus := true,
        allow_multiple_failover_requests_from_node := false,
        enable_consensus_with_half_votes := true } 0
      <= (add_failover
            { failover_when_quorum_exists := true, failover_require_consensus := true,
              allow_multiple_failover_requests_from_node := false,
              enable_consensus_with_half_votes := true }
            [] POOL_REQUEST_KIND.NODE_DOWN_REQUEST [0] 5 0 1 100).obj.request_count :=
  C1_consensus_safety_amended _
    { remoteNodeCount := 0, standby_nodes_count := 0, quorum_status := -1,
      wdCurrentFailovers := [], nextCommandID := 1 }
    POOL_REQUEST_KIND.NODE_DOWN_REQUEST [0] 0 5 100 rfl rfl rfl (by decide)

/-- C2: for a cluster of N nodes (remote = N - 1), the minimum remote node
count for quorum is remote/2 for even remote and (remote-1)/2 for odd
remote; the minimum consensus votes are that plus one, plus one more when
N is even and enable_consensus_with_half_votes is false; in particular
min_votes = 3 for N = 4 without half votes. -/
theorem C2_min_votes_formula (cfg : PoolConfig) (N : Nat) (h : 1 <= N) :
    get_mimimum_remote_nodes_required_for_quorum (N - 1)
      = (if (N - 1) % 2 = 0 then (N - 1) / 2 else (N - 1 - 1) / 2)
    ∧ get_minimum_votes_to_resolve_consensus cfg (N - 1)
      = get_mimimum_remote_nodes_required_for_quorum (N - 1) + 1
        + (if N % 2 = 0 ∧ cfg.enable_consensus_with_half_votes = false then 1 else 0)
    ∧ (N = 4 → cfg.enable_consensus_with_half_votes = false →
        get_minimum_votes_to_resolve_consensus cfg (N - 1) = 3) := by
  refine ⟨?_, ?_, ?_⟩
  · simp only [get_mimimum_remote_nodes_required_for_quorum, beq_iff_eq]
  · rcases Nat.mod_two_eq_zero_or_one (N - 1) with h2 | h2
    · have hN : N % 2 = 1 := by omega
      cases hc : cfg.enable_consensus_with_half_votes <;>
        simp [get_minimum_votes_to_resolve_consensus, h2, hN, hc]
    · have hN : N % 2 = 0 := by omega
      cases hc : cfg.enable_consensus_with_half_votes <;>
        simp [get_minimum_votes_to_resolve_consensus, h2, hN, hc]
  · rintro rfl hc
    simp [get_minimum_votes_to_resolve_consensus,
      get_mimimum_remote_nodes_required_for_quorum, hc]

/-- Witness for C2 at N = 4 with enable_consensus_with_half_votes false. -/
theorem C2_min_votes_formula_witness :
    get_minimum_votes_to_resolve_consensus
      { failover_when_quorum_exists := true, failover_require_consensus := true,
        allow_multiple_failover_requests_from_node := false,
        enable_consensus_with_half_votes := false } (4 - 1) = 3 :=
  (C2_min_votes_formula
    { failover_when_quorum_exists := true, failover_require_consensus := true,
      allow_multiple_failover_requests_from_node := false,
      enable_consensus_with_half_votes := false } 4 (by decide)).2.2 rfl rfl

/-- C3: for a local coordinator receiving a coordinator beacon from a peer
also claiming coordinator, the tiebreaker is applied in the order
escalated, quorum_status, standby_count, older current_state_since; the
loser side broadcasts IamNotTrueMaster and joins, the winner side answers
IamTrueMaster and stays coordinator, and a peer without beacon fields
yields NeedsElection plus a transition to Joining. -/
theorem C3_split_brain_tiebreak (lv ov : MasterView)
    (hl : lv.state = WD_STATES.WD_COORDINATOR)
    (ho : ov.state = WD_STATES.WD_COORDINATOR) :
    handle_split_brain lv ov =
      if ov.current_state_time_sec = 0 then
        { message := CLUSTER_NEEDS_ELECTION, dest := MsgDest.toNode,
          newLocalState := WD_STATES.WD_JOINING }
      else if spec_remote_master_worthier lv ov then
        { message := CLUSTER_IAM_NOT_TRUE_MASTER, dest := MsgDest.broadcast,
          newLocalState := WD_STATES.WD_JOINING }
      else
        { message := CLUSTER_IAM_TRUE_MASTER, dest := MsgDest.toNode,
          newLocalState := WD_STATES.WD_COORDINATOR } := by
  unfold handle_split_brain I_am_master_and_cluser_in_split_brain spec_remote_master_worthier
  rw [hl, ho]
  simp only [bne_self_eq_false, Bool.false_eq_true, if_false]
  split_ifs <;> simp_all <;> omega

/-- Witness for C3: the split-brain-by-heal scenario, where the
non-escalated coordinator resigns in favor of the escalated one. -/
theorem C3_split_brain_tiebreak_witness :
    handle_split_brain
      { state := WD_STATES.WD_COORDINATOR, escalated := false, quorum_status := 0,
        standby_nodes_count := 0, current_state_time_sec := 50 }
      { state := WD_STATES.WD_COORDINATOR, escalated := true, quorum_status := 0,
        standby_nodes_count := 0, current_state_time_sec := 60 }
      = { message := CLUSTER_IAM_NOT_TRUE_MASTER, dest := MsgDest.broadcast,
          newLocalState := WD_STATES.WD_JOINING } := by
  rw [C3_split_brain_tiebreak _ _ rfl rfl]
  decide

/-- C4: a node standing for coordinator that receives a peer's
StandForCoordinator message replies Reject exactly when its own priority
is higher, or the priorities are equal and its own startup time is older
or equal; otherwise it replies Accept and moves to
ParticipatingInElection.  With equal priorities the older node rejects
the younger and the younger accepts the older, so the older wins. -/
theorem C4_stand_for_coordinator_tiebreak (lp op ls os p sA sB : Int) (h : sA < sB) :
    (standForCord_on_stand_for_coordinator_msg lp op ls os
        = (WD_REJECT_MESSAGE, WD_STATES.WD_STAND_FOR_COORDINATOR)
      ↔ (op < lp ∨ (op = lp ∧ ls <= os)))
    ∧ (standForCord_on_stand_for_coordinator_msg lp op ls os
        = (WD_ACCEPT_MESSAGE, WD_STATES.WD_PARTICIPATE_IN_ELECTION)
      ↔ ¬(op < lp ∨ (op = lp ∧ ls <= os)))
    ∧ standForCord_on_stand_for_coordinator_msg p p sA sB
        = (WD_REJECT_MESSAGE, WD_STATES.WD_STAND_FOR_COORDINATOR)
    ∧ standForCord_on_stand_for_coordinator_msg p p sB sA
        = (WD_ACCEPT_MESSAGE, WD_STATES.WD_PARTICIPATE_IN_ELECTION) := by
  refine ⟨?_, ?_, ?_, ?_⟩
  · rw [standForCord_reply_cases]
    by_cases hc : op < lp ∨ (op = lp ∧ ls <= os)
    · simp only [if_pos hc]
      exact ⟨fun _ => hc, fun _ => True.intro⟩
    · simp only [if_neg hc]
      constructor
      · intro heq
        exact absurd (congrArg Prod.snd heq) (by decide)
      · intro hx
        exact absurd hx hc
  · rw [standForCord_reply_cases]
    by_cases hc : op < lp ∨ (op = lp ∧ ls <= os)
    · simp only [if_pos hc]
      constructor
      · intro heq
        exact absurd (congrArg Prod.snd heq) (by decide)
      · intro hx
        exact absurd hc hx
    · simp only [if_neg hc]
      exact ⟨fun _ => hc, fun _ => True.intro⟩
  · rw [standForCord_reply_cases, if_pos (Or.inr ⟨rfl, le_of_lt h⟩)]
  · rw [standForCord_reply_cases,
      if_neg (by intro hx; rcases hx with hx | ⟨_, hx⟩ <;> omega)]

/-- Witness for C4: the priority-tie scenario of the spec, A(pri 2,
startup 10) against B(pri 2, startup 20): A rejects B's stand, B accepts
A's stand. -/
theorem C4_stand_for_coordinator_tiebreak_witness :
    standForCord_on_stand_for_coordinator_msg 2 2 10 20
        = (WD_REJECT_MESSAGE, WD_STATES.WD_STAND_FOR_COORDINATOR)
    ∧ standForCord_on_stand_for_coordinator_msg 2 2 20 10
        = (WD_ACCEPT_MESSAGE, WD_STATES.WD_PARTICIPATE_IN_ELECTION) :=
  ⟨(C4_stand_for_coordinator_tiebreak 3 2 0 0 2 10 20 (by decide)).2.2.1,
   (C4_stand_for_coordinator_tiebreak 3 2 0 0 2 10 20 (by decide)).2.2.2⟩

/-- C5: with allow_multiple_failover_requests_from_node disabled, a vote
from a requestor already recorded on the proposal changes nothing at all,
and every requestor is counted at most once: request_count always equals
the number of recorded requestors, which stay pairwise distinct. -/
theorem C5_duplicate_vote_not_counted (cfg : PoolConfig)
    (failovers : List WDFailoverObject) (reqKind : POOL_REQUEST_KIND)
    (nl : List Int) (wdNode flags cid : Nat) (now : Int)
    (hallow : cfg.allow_multiple_failover_requests_from_node = false) :
    (∀ obj, get_failover_object failovers reqKind nl.length nl = some obj →
      wdNode ∈ obj.requestingNodes →
      add_failover cfg failovers reqKind nl wdNode flags cid now
        = ⟨failovers, obj, true⟩)
    ∧ ((∀ f ∈ failovers, failover_vote_invariant f) →
       ∀ f ∈ (add_failover cfg failovers reqKind nl wdNode flags cid now).failovers,
         failover_vote_invariant f) := by
  constructor
  · intro obj hfind hmem
    simp only [add_failover, hfind]
    rw [if_pos (List.elem_eq_true_of_mem hmem), if_neg (by simp [hallow])]
  · intro hinv f hf
    rcases hfind : get_failover_object failovers reqKind nl.length nl with _ | obj
    · simp only [add_failover, hfind] at hf
      rcases List.mem_append.mp hf with hf | hf
      · exact hinv f hf
      · simp at hf
        subst hf
        exact ⟨by simp, by simp⟩
    · simp only [add_failover, hfind] at hf
      by_cases hmem : obj.requestingNodes.contains wdNode
      · rw [if_pos hmem, if_neg (by simp [hallow])] at hf
        exact hinv f hf
      · rw [if_neg hmem] at hf
        simp only at hf
        have hobjinv : failover_vote_invariant obj :=
          hinv obj (List.mem_of_find?_eq_some hfind)
        have hnotmem : wdNode ∉ obj.requestingNodes := fun hcon =>
          hmem (List.elem_eq_true_of_mem hcon)
        refine update_first_of_find _ _ obj ?_ failovers hfind hinv f hf
        refine ⟨by simp [hobjinv.1], ?_⟩
        exact List.nodup_append.mpr ⟨hobjinv.2, List.nodup_singleton _,
          by simp [List.disjoint_singleton, hnotmem]⟩

/-- Witness for C5: a second vote from requestor 4 on a one-vote proposal
leaves the proposal list, the object and its count unchanged. -/
theorem C5_duplicate_vote_not_counted_witness :
    add_failover
      { failover_when_quorum_exists := true, failover_require_consensus := true,
        allow_multiple_failover_requests_from_node := false,
        enable_consensus_with_half_votes := false }
      [{ reqKind := POOL_REQUEST_KIND.NODE_DOWN_REQUEST, reqFlags := 0, nodesCount := 1,
         failoverID := 5, nodeList := [0], requestingNodes := [4], request_count := 1,
         startTime := 90 }]
      POOL_REQUEST_KIND.NODE_DOWN_REQUEST [0] 4 0 9 100
      = ⟨[{ reqKind := POOL_REQUEST_KIND.NODE_DOWN_REQUEST, reqFlags := 0, nodesCount := 1,
            failoverID := 5, nodeList := [0], requestingNodes := [4], request_count := 1,
            startTime := 90 }],
         { reqKind := POOL_REQUEST_KIND.NODE_DOWN_REQUEST, reqFlags := 0, nodesCount := 1,
           failoverID := 5, nodeList := [0], requestingNodes := [4], request_count := 1,
           startTime := 90 }, true⟩ :=
  (C5_duplicate_vote_not_counted _ _ POOL_REQUEST_KIND.NODE_DOWN_REQUEST [0] 4 0 9 100
    rfl).1 _ (by decide) (by decide)

/-- C6 (counterexample): a command sent to peers 10 and 11, with peer 10
replying Accept twice: the second reply from the same peer is not
ignored -- it increments the reply count from 1 to 2 and completes the
command with AllReplied although peer 11 never replied. -/
theorem C6_command_reply_counterexample :
    (watchdog_internal_command_packet_processor
      [{ command_id := 7, commandStatus := WDCommandStatus.COMMAND_IN_PROGRESS,
         nodeResults := [⟨10, WDNodeCommandState.COMMAND_STATE_SENT, WD_NO_MESSAGE⟩,
                         ⟨11, WDNodeCommandState.COMMAND_STATE_SENT, WD_NO_MESSAGE⟩],
         commandSendToCount := 2, commandReplyFromCount := 0 }] 10 WD_ACCEPT_MESSAGE
      7).command.map (fun c => c.commandReplyFromCount) = some 1
    ∧ (watchdog_internal_command_packet_processor
        (watchdog_internal_command_packet_processor
          [{ command_id := 7, commandStatus := WDCommandStatus.COMMAND_IN_PROGRESS,
             nodeResults := [⟨10, WDNodeCommandState.COMMAND_STATE_SENT, WD_NO_MESSAGE⟩,
                             ⟨11, WDNodeCommandState.COMMAND_STATE_SENT, WD_NO_MESSAGE⟩],
             commandSendToCount := 2, commandReplyFromCount := 0 }] 10 WD_ACCEPT_MESSAGE
          7).clusterCommands
        10 WD_ACCEPT_MESSAGE 7).command.map (fun c => c.commandReplyFromCount) = some 2
    ∧ (watchdog_internal_command_packet_processor
        (watchdog_internal_command_packet_processor
          [{ command_id := 7, commandStatus := WDCommandStatus.COMMAND_IN_PROGRESS,
             nodeResults := [⟨10, WDNodeCommandState.COMMAND_STATE_SENT, WD_NO_MESSAGE⟩,
                             ⟨11, WDNodeCommandState.COMMAND_STATE_SENT, WD_NO_MESSAGE⟩],
             commandSendToCount := 2, commandReplyFromCount := 0 }] 10 WD_ACCEPT_MESSAGE
          7).clusterCommands
        10 WD_ACCEPT_MESSAGE 7).finishedStatus
      = some WDCommandStatus.COMMAND_FINISHED_ALL_REPLIED := by
  decide

/-- C6 (amended): replies are matched to a command only by command_id, and
a reply to a command that is no longer in progress is dropped; but there
is no per-peer coalescing: any Accept/Reject/Error/Info reply from a peer
owning a result slot of an in-progress command -- including a repeated one
from the same peer -- increments the reply count again. -/
theorem C6_duplicate_reply_counted_again (clusterCommands : List WDCommandData)
    (cmd : WDCommandData) (wdNode pkt_command_id : Nat) (pkt_type : Char)
    (hfind : get_wd_cluster_command_from_reply clusterCommands pkt_command_id = some cmd)
    (htype : pkt_type = WD_ERROR_MESSAGE ∨ pkt_type = WD_ACCEPT_MESSAGE ∨
             pkt_type = WD_REJECT_MESSAGE ∨ pkt_type = WD_INFO_MESSAGE) :
    (cmd.commandStatus ≠ WDCommandStatus.COMMAND_IN_PROGRESS →
      watchdog_internal_command_packet_processor clusterCommands wdNode pkt_type
          pkt_command_id
        = { clusterCommands := clusterCommands, handled := false,
            command := none, finishedStatus := none })
    ∧ (cmd.commandStatus = WDCommandStatus.COMMAND_IN_PROGRESS →
      (∃ r ∈ cmd.nodeResults, r.wdNode = wdNode) →
      (watchdog_internal_command_packet_processor clusterCommands wdNode pkt_type
          pkt_command_id).command.map (fun c => c.commandReplyFromCount)
        = some (cmd.commandReplyFromCount + 1)) := by
  constructor
  · intro hst
    simp only [watchdog_internal_command_packet_processor, hfind]
    rw [if_pos (by simp [hst])]
  · intro hst hmem
    have hfound : (mark_node_reply wdNode pkt_type cmd.nodeResults).2 = true :=
      (mark_node_reply_found_iff wdNode pkt_type cmd.nodeResults).mpr hmem
    simp only [watchdog_internal_command_packet_processor, hfind]
    rw [if_neg (by simp [hst])]
    rw [if_neg (by rcases htype with h | h | h | h <;> simp [h])]
    rw [if_neg (by simp [hfound])]
    by_cases hc : cmd.commandReplyFromCount + 1 >= cmd.commandSendToCount
    · rw [if_pos hc]
      simp
    · rw [if_neg hc]
      by_cases hrej : pkt_type == WD_REJECT_MESSAGE || pkt_type == WD_ERROR_MESSAGE
      · rw [if_pos hrej]; simp
      · rw [if_neg hrej]; simp

/-- Witness for C6 amended: peer 10 already has a recorded Accept, yet its
repeated Accept raises the reply count from 1 to 2. -/
theorem C6_duplicate_reply_counted_again_witness :
    (watchdog_internal_command_packet_processor
      [{ command_id := 7, commandStatus := WDCommandStatus.COMMAND_IN_PROGRESS,
         nodeResults := [⟨10, WDNodeCommandState.COMMAND_STATE_REPLIED, WD_ACCEPT_MESSAGE⟩,
                         ⟨11, WDNodeCommandState.COMMAND_STATE_SENT, WD_NO_MESSAGE⟩],
         commandSendToCount := 2, commandReplyFromCount := 1 }] 10 WD_ACCEPT_MESSAGE
      7).command.map (fun c => c.commandReplyFromCount) = some 2 :=
  (C6_duplicate_reply_counted_again
    [{ command_id := 7, commandStatus := WDCommandStatus.COMMAND_IN_PROGRESS,
       nodeResults := [⟨10, WDNodeCommandState.COMMAND_STATE_REPLIED, WD_ACCEPT_MESSAGE⟩,
                       ⟨11, WDNodeCommandState.COMMAND_STATE_SENT, WD_NO_MESSAGE⟩],
       commandSendToCount := 2, commandReplyFromCount := 1 }]
    { command_id := 7, commandStatus := WDCommandStatus.COMMAND_IN_PROGRESS,
      nodeResults := [⟨10, WDNodeCommandState.COMMAND_STATE_REPLIED, WD_ACCEPT_MESSAGE⟩,
                      ⟨11, WDNodeCommandState.COMMAND_STATE_SENT, WD_NO_MESSAGE⟩],
      commandSendToCount := 2, commandReplyFromCount := 1 }
    10 7 WD_ACCEPT_MESSAGE (by decide) (Or.inr (Or.inl rfl))).2 rfl
    ⟨⟨10, WDNodeCommandState.COMMAND_STATE_REPLIED, WD_ACCEPT_MESSAGE⟩, by decide, rfl⟩

/-- C7: on the coordinator the expiry pass leaves no proposal aged 15
seconds or more; and when some expired proposal is a NODE_DOWN request
the local node voted for whose target backend the local middleware has
quarantined as primary, the coordinator drops its priority to -1,
broadcasts IamResigningFromMaster and transitions to Joining (which also
clears the remaining proposals). -/
theorem C7_expired_failover_resignation (st : ExpiryState)
    (backend_info : Int → BackendInfo) (currTime : Int)
    (hcoord : st.localState = WD_STATES.WD_COORDINATOR) :
    (∀ f ∈ (service_expired_failovers st backend_info currTime).1.wdCurrentFailovers,
        currTime - f.startTime < FAILOVER_COMMAND_FINISH_TIMEOUT)
    ∧ ((∃ f ∈ st.wdCurrentFailovers,
          FAILOVER_COMMAND_FINISH_TIMEOUT <= currTime - f.startTime ∧
          expired_failover_needs_resign st backend_info f = true) →
        service_expired_failovers st backend_info currTime
          = ({ st with local_wd_priority := -1,
                       localState := WD_STATES.WD_JOINING,
                       wdCurrentFailovers := [] }, true)) := by
  constructor
  · intro f hf
    unfold service_expired_failovers at hf
    rw [if_neg (by simp [hcoord])] at hf
    by_cases hneed : st.wdCurrentFailovers.any (fun f =>
        decide (currTime - f.startTime >= FAILOVER_COMMAND_FINISH_TIMEOUT) &&
        expired_failover_needs_resign st backend_info f)
    · rw [if_pos hneed] at hf
      simp at hf
    · rw [if_neg hneed] at hf
      simp only at hf
      have := List.of_mem_filter hf
      simpa using this
  · intro ⟨f, hf, h15, hres⟩
    unfold service_expired_failovers
    rw [if_neg (by simp [hcoord])]
    rw [if_pos (List.any_eq_true.mpr ⟨f, hf, by simp [h15, hres]⟩)]

/-- Witness for C7: the stale-proposal-resignation scenario with one
NODE_DOWN proposal aged 20 s carrying the coordinator's own vote for a
quarantined primary backend. -/
theorem C7_expired_failover_resignation_witness :
    service_expired_failovers
      { localState := WD_STATES.WD_COORDINATOR, local_wd_priority := 1, localNodeId := 0,
        wdCurrentFailovers :=
          [{ reqKind := POOL_REQUEST_KIND.NODE_DOWN_REQUEST, reqFlags := 0,
             nodesCount := 1, failoverID := 5, nodeList := [2],
             requestingNodes := [0, 3], request_count := 2, startTime := 80 }],
        primary_node_id := -1 }
      (fun _ => { quarantine := true, role := SERVER_ROLE.ROLE_PRIMARY }) 100
      = ({ localState := WD_STATES.WD_JOINING, local_wd_priority := -1, localNodeId := 0,
           wdCurrentFailovers := [], primary_node_id := -1 }, true) :=
  (C7_expired_failover_resignation _
    (fun _ => { quarantine := true, role := SERVER_ROLE.ROLE_PRIMARY }) 100 rfl).2
    ⟨{ reqKind := POOL_REQUEST_KIND.NODE_DOWN_REQUEST, reqFlags := 0, nodesCount := 1,
       failoverID := 5, nodeList := [2], requestingNodes := [0, 3], request_count := 2,
       startTime := 80 }, by decide, by decide, by decide⟩

/-- C8: an IPC FailoverCommand whose JSON payload carries neither a shared
key nor an auth key is rejected by the authentication gate before any
dispatch runs: the state is untouched for every possible dispatch, the
processing result is IPC_CMD_ERROR with error string
"authentication failed: invalid KEY", and the reply frame type for
IPC_CMD_ERROR is the Bad result. -/
theorem C8_ipc_failover_auth_rejected {St : Type} (st : St)
    (dispatch : St → IPC_CMD_PREOCESS_RES × St)
    (shared_key_mem : Option Int) (wd_authkey : String) (payload : IPCAuthPayload)
    (hshared : payload.sharedKey = none) (_hauth : payload.authKey = none) :
    process_IPC_command st IPCCommandType.WD_IPC_FAILOVER_COMMAND
        (IPCPacketData.obj payload) shared_key_mem true wd_authkey dispatch
      = (IPC_CMD_PREOCESS_RES.IPC_CMD_ERROR, st, some "authentication failed: invalid KEY")
    ∧ ipc_reply_type_for_result IPC_CMD_PREOCESS_RES.IPC_CMD_ERROR
      = IPCResultType.WD_IPC_CMD_RESULT_BAD := by
  constructor
  · cases shared_key_mem <;>
      simp [process_IPC_command, check_and_report_IPC_authentication,
        ipc_command_internal_client_only, check_IPC_client_authentication, hshared]
  · rfl

/-- Witness for C8: concrete rejected request with a configured auth key
and an initialized shared key, over a Nat state and a dispatch that would
change the state if it ran. -/
theorem C8_ipc_failover_auth_rejected_witness :
    process_IPC_command (0 : Nat) IPCCommandType.WD_IPC_FAILOVER_COMMAND
        (IPCPacketData.obj { sharedKey := none, authKey := none }) (some 12345) true
        "secret" (fun s => (IPC_CMD_PREOCESS_RES.IPC_CMD_OK, s + 1))
      = (IPC_CMD_PREOCESS_RES.IPC_CMD_ERROR, 0, some "authentication failed: invalid KEY")
    ∧ ipc_reply_type_for_result IPC_CMD_PREOCESS_RES.IPC_CMD_ERROR
      = IPCResultType.WD_IPC_CMD_RESULT_BAD :=
  C8_ipc_failover_auth_rejected 0 _ (some 12345) "secret" _ rfl rfl

/-- C9: the escalation entry points are idempotent: starting escalation on
an already escalated node returns immediately without forking and without
touching holding_vip, resigning on a non-escalated node likewise, and any
number of repeated start calls while escalated forks nothing. -/
theorem C9_escalation_idempotent (s : EscalationState) (f : Int) (n : Nat) :
    (s.escalated = true → start_escalated_node f s = (s, 0))
    ∧ (s.escalated = false → resign_from_escalated_node f s = (s, 0))
    ∧ (s.escalated = true → start_escalated_node_iter f n s = (s, 0)) := by
  refine ⟨fun h => ?_, fun h => ?_, fun h => ?_⟩
  · simp [start_escalated_node, h]
  · simp [resign_from_escalated_node, h]
  · induction n with
    | zero => simp [start_escalated_node_iter]
    | succ k ih => simp [start_escalated_node_iter, start_escalated_node, h, ih]

/-- Witness for C9 at a concrete escalated state (and a concrete
non-escalated state for the resign direction), three repeated starts. -/
theorem C9_escalation_idempotent_witness :
    start_escalated_node 42
      { escalated := true, holding_vip := true, escalation_pid := 7,
        de_escalation_pid := 0, delegate_ip_len := 9 }
      = ({ escalated := true, holding_vip := true, escalation_pid := 7,
           de_escalation_pid := 0, delegate_ip_len := 9 }, 0)
    ∧ resign_from_escalated_node 42
      { escalated := false, holding_vip := false, escalation_pid := 0,
        de_escalation_pid := 0, delegate_ip_len := 9 }
      = ({ escalated := false, holding_vip := false, escalation_pid := 0,
           de_escalation_pid := 0, delegate_ip_len := 9 }, 0)
    ∧ start_escalated_node_iter 42 3
      { escalated := true, holding_vip := true, escalation_pid := 7,
        de_escalation_pid := 0, delegate_ip_len := 9 }
      = ({ escalated := true, holding_vip := true, escalation_pid := 7,
           de_escalation_pid := 0, delegate_ip_len := 9 }, 0) :=
  ⟨(C9_escalation_idempotent _ 42 3).1 rfl,
   (C9_escalation_idempotent _ 42 3).2.1 rfl,
   (C9_escalation_idempotent _ 42 3).2.2 rfl⟩

/-- C10: when quorum-gated consensus is required, the quorum holds and the
vote leaves the proposal below min_votes, a duplicate vote under disabled
allow_multiple_failover_requests_from_node yields ConsensusMayFail while
a first-time vote yields BuildingConsensus. -/
theorem C10_duplicate_vote_consensus_may_fail (cfg : PoolConfig) (st : ConsensusState)
    (reqKind : POOL_REQUEST_KIND) (nl : List Int) (flags : Nat) (wdNode : Nat) (now : Int)
    (hq : cfg.failover_when_quorum_exists = true)
    (hflags : Nat.land flags REQ_DETAIL_CONFIRMED = 0)
    (hrc : cfg.failover_require_consensus = true)
    (hquorum : 0 <= update_quorum_status cfg st.remoteNodeCount st.standby_nodes_count)
    (hcount : (add_failover cfg st.wdCurrentFailovers reqKind nl wdNode flags
        st.nextCommandID now).obj.request_count
      < get_minimum_votes_to_resolve_consensus cfg st.remoteNodeCount) :
    ((add_failover cfg st.wdCurrentFailovers reqKind nl wdNode flags
        st.nextCommandID now).duplicate = true →
      cfg.allow_multiple_failover_requests_from_node = false →
      (compute_failover_consensus cfg st reqKind nl flags wdNode now).1
        = WDFailoverCMDResults.FAILOVER_RES_CONSENSUS_MAY_FAIL)
    ∧ ((add_failover cfg st.wdCurrentFailovers reqKind nl wdNode flags
        st.nextCommandID now).duplicate = false →
      (compute_failover_consensus cfg st reqKind nl flags wdNode now).1
        = WDFailoverCMDResults.FAILOVER_RES_BUILDING_CONSENSUS) := by
  constructor
  · intro hdup hallow
    simp [compute_failover_consensus, hq, hflags, hrc, hdup, hallow,
      not_lt.mpr hquorum, hcount]
  · intro hdup
    simp [compute_failover_consensus, hq, hflags, hrc, hdup,
      not_lt.mpr hquorum, hcount]

/-- Witness for C10: node 7 votes a second time for a one-vote NODE_DOWN
proposal in an N = 4 cluster needing 3 votes: ConsensusMayFail. -/
theorem C10_duplicate_vote_consensus_may_fail_witness :
    (compute_failover_consensus
      { failover_when_quorum_exists := true, failover_require_consensus := true,
        allow_multiple_failover_requests_from_node := false,
        enable_consensus_with_half_votes := false }
      { remoteNodeCount := 3, standby_nodes_count := 2, quorum_status := -1,
        wdCurrentFailovers :=
          [{ reqKind := POOL_REQUEST_KIND.NODE_DOWN_REQUEST, reqFlags := 0,
             nodesCount := 1, failoverID := 5, nodeList := [0],
             requestingNodes := [7], request_count := 1, startTime := 90 }],
        nextCommandID := 6 }
      POOL_REQUEST_KIND.NODE_DOWN_REQUEST [0] 0 7 100).1
      = WDFailoverCMDResults.FAILOVER_RES_CONSENSUS_MAY_FAIL :=
  (C10_duplicate_vote_consensus_may_fail _ _ POOL_REQUEST_KIND.NODE_DOWN_REQUEST [0] 0 7 100
    rfl rfl rfl (by decide) (by decide)).1 (by decide) rfl

end PgpoolWd
